import Mathlib

/-!
Verification development for the cubitpy remote-object bridge.

The repository connects a host python interpreter with a client interpreter
that embeds the cubit engine.  We shallowly embed the wire values, the
handle codec (`cubit_wrapper_utility.py`), the host connection manager and
proxy objects (`src/cubitpy/cubit_wrapper/cubit_wrapper_host.py`,
`cubitpy/cubit_wrapper3.py`), and the client dispatch loop
(`cubitpy/cubit_wrapper2.py`), and prove properties of the resulting
definitions.
-/

set_option maxHeartbeats 1600000

namespace CubitPy

/-- Errors raised by the python code; each constructor is one python
exception class that the embedded code can raise. -/
inductive PyErr where
  | indexError
  | typeError
  | valueError
  | keyError
  | overflowError
  | attributeError
  deriving DecidableEq, Repr

/-- A python value as it appears on the execnet channel: strings, ints,
floats, bools, `None`, and (possibly nested) lists.  Tuples are sent as
lists by the channel, so both are modelled by `list`. -/
inductive PyVal where
  | str (s : String)
  | int (n : Int)
  | float (q : Rat)
  | bool (b : Bool)
  | none
  | list (xs : List PyVal)

/-- The fixed marker distinguishing a handle id string from an ordinary
string base value (`'cp2t3id_'` in `cubit_wrapper_utility.py`). -/
def idMarker : String := "cp2t3id_"

/-- Python `s.startswith(p)`, on the character lists of the strings. -/
def strStartsWith (s p : String) : Bool :=
  p.toList.isPrefixOf s.toList

/-- Python slicing `s[n:]`, on the character list of the string. -/
def strDrop (s : String) (n : Nat) : String :=
  .mk (s.toList.drop n)

/-- Accumulator loop for decimal digit parsing. -/
def digitsToNat (acc : Nat) : List Char → Option Nat
  | [] => some acc
  | c :: cs =>
    if c.isDigit then digitsToNat (acc * 10 + (c.toNat - 48)) cs
    else Option.none

/-- Python `int(s)` on a decimal string: an optional sign followed by at
least one digit; anything else raises `ValueError`, modelled by
`Option.none`. -/
def pyInt? (s : String) : Option Int :=
  match s.toList with
  | [] => Option.none
  | '-' :: cs =>
    match cs with
    | [] => Option.none
    | _ => (digitsToNat 0 cs).map (fun n => -(n : Int))
  | cs => (digitsToNat 0 cs).map (fun n => (n : Int))

/-- The function `is_base_type` from `cubit_wrapper_utility.py`: strings, ints, floats
and `None` cross the boundary by copy.  A python `bool` is an instance of
`int`, so it is a base type as well. -/
def is_base_type : PyVal → Bool
  | .str _ => true
  | .int _ => true
  | .float _ => true
  | .bool _ => true
  | .none => true
  | .list _ => false

/-- The function `cubit_item_to_id` from `cubit_wrapper_utility.py`.  The python code
indexes `cubit_data_list[0]` after checking only that the input is a list,
so the empty list raises `IndexError`; a first element that is not a
string, or a string without the marker, gives `None`; a marked string is
parsed with `int(...)`, which raises `ValueError` when the suffix is not
numeric. -/
def cubit_item_to_id : PyVal → Except PyErr (Option Int)
  | .list [] => .error .indexError
  | .list (x :: _) =>
    match x with
    | .str s =>
      if strStartsWith s idMarker then
        match pyInt? (strDrop s 8) with
        | some n => .ok (some n)
        | Option.none => .error .valueError
      else .ok Option.none
    | _ => .ok Option.none
  | _ => .ok Option.none

/-- A live engine object in the client process: its python `id()` value
and its `str()` representation, together with which of the four cubit
geometry classes it is an instance of (`Option.none` for objects that are
not geometry, such as the root cubit module). -/
inductive GeomKind where
  | vertex
  | curve
  | surface
  | volume
  deriving DecidableEq, Repr

structure EngineObj where
  oid : Int
  pyStr : String
  kind : Option GeomKind
  deriving DecidableEq, Repr

/-- The check `is_cubit_type` from `cubitpy/cubit_wrapper2.py`: the object is an
instance of one of the cubit geometry classes. -/
def is_cubit_type (o : EngineObj) : Bool :=
  o.kind.isSome

/-- The function `object_to_id` from `cubit_wrapper_utility.py`: the wire handle for an
engine object, `['cp2t3id_' + str(id(obj)), str(obj)]`. -/
def object_to_id (o : EngineObj) : PyVal :=
  .list [.str (idMarker ++ toString o.oid), .str o.pyStr]

/-! ## Host side: `src/cubitpy/cubit_wrapper/cubit_wrapper_host.py` -/

/-- A host-side proxy (`CubitObject` in `cubit_wrapper_host.py`): it stores
the connection it belongs to (modelled by an identifying number) and the
wire data list `cubit_id` received from the client. -/
structure CubitObject where
  cubit_connect : Nat
  cubit_id : PyVal

/-- The constructor `CubitObject.__init__`: checks `cubit_item_to_id(cubit_data_list)` and
raises `TypeError` when it is `None`; the check itself can raise (empty
list).  On success the object stores the connection and the data list. -/
def CubitObject.make (conn : Nat) (cubit_data_list : PyVal) :
    Except PyErr CubitObject :=
  match cubit_item_to_id cubit_data_list with
  | .error e => .error e
  | .ok Option.none => .error .typeError
  | .ok (some _) => .ok ⟨conn, cubit_data_list⟩

/-- A value held by host code: a proxy, a plain python value, a geometry
enum member (`cupy.geometry`), or a sequence (list/tuple/numpy array) of
such values. -/
inductive HostVal where
  | obj (o : CubitObject)
  | base (v : PyVal)
  | geom (g : GeomKind)
  | seq (xs : List HostVal)

/-- The method `get_cubit_string` of the `cupy.geometry` enum (`cubitpy/conf.py`). -/
def GeomKind.get_cubit_string : GeomKind → String
  | .vertex => "vertex"
  | .curve => "curve"
  | .surface => "surface"
  | .volume => "volume"

/-- The function `serialize_item` from `cubit_wrapper_host.py` (`get_attribute`): a
sequence is serialized recursively, a proxy serializes to its `cubit_id`,
floats and ints are coerced to plain floats and ints (the identity in this
model, where `PyVal` is already plain), geometry enum members to their
cubit string, and everything else passes through unchanged. -/
def serialize_item : HostVal → PyVal
  | .seq xs => .list (xs.attach.map (fun x => serialize_item x.1))
  | .obj o => o.cubit_id
  | .geom g => .str g.get_cubit_string
  | .base v => v
  decreasing_by
    have := List.sizeOf_lt_of_mem x.2
    simp only [HostVal.seq.sizeOf_spec]
    omega

/-- The serializer maps over a sequence elementwise. -/
theorem serialize_item_seq (xs : List HostVal) :
    serialize_item (.seq xs) = .list (xs.map serialize_item) := by
  rw [serialize_item]
  congr 1
  simp [List.attach, List.attachWith, List.map_pmap]

/-- One element of the host deserializer's list branch in
`cubit_wrapper_host.py` (`get_attribute`, inner loop): a handle becomes a
new proxy on the same connection, a base value is kept, anything else
raises `TypeError`.  Recognition itself can raise (empty-list element). -/
def deserialize_item (conn : Nat) (item : PyVal) : Except PyErr HostVal :=
  match cubit_item_to_id item with
  | .error e => .error e
  | .ok (some _) => .ok (.obj ⟨conn, item⟩)
  | .ok Option.none =>
    if is_base_type item then .ok (.base item) else .error .typeError

/-- The host deserializer for a call result (`cubit_wrapper_host.py`,
`get_attribute`): a wire handle becomes a proxy; otherwise a list is
traversed one level deep, each element being a handle or a base value;
otherwise a base value is returned unchanged; anything else raises
`TypeError`. -/
def deserialize_return (conn : Nat) (r : PyVal) : Except PyErr HostVal :=
  match cubit_item_to_id r with
  | .error e => .error e
  | .ok (some _) => .ok (.obj ⟨conn, r⟩)
  | .ok Option.none =>
    match r with
    | .list items => (items.mapM (deserialize_item conn)).map .seq
    | _ => if is_base_type r then .ok (.base r) else .error .typeError

/-- The transport channel seen from the host: either already closed, or
open with the client's response function for the next message.  `respond`
models the client's reply to one request. -/
structure Channel where
  closed : Bool
  respond : PyVal → PyVal

/-- The method `CubitConnect.send_and_return` from `cubit_wrapper_host.py`: the send
and receive are wrapped in a bare `try/except` returning `None`, so a
closed channel yields `None` instead of raising. -/
def send_and_return (ch : Channel) (argument_list : PyVal) : Option PyVal :=
  if ch.closed then Option.none else some (ch.respond argument_list)

/-- What the host code sees after `send_and_return`: python `None` when the
transport was closed, else the client's reply. -/
def recvVal (ch : Channel) (argument_list : PyVal) : PyVal :=
  match send_and_return ch argument_list with
  | some v => v
  | Option.none => .none

/-- The closure `function(*args)` built by `get_attribute` in
`cubit_wrapper_host.py`: serialize the arguments, send
`[cubit_id, name, arguments]`, deserialize the reply. -/
def proxy_call (ch : Channel) (obj : CubitObject) (name : String)
    (args : List HostVal) : Except PyErr HostVal :=
  deserialize_return obj.cubit_connect
    (recvVal ch (.list [obj.cubit_id, .str name, serialize_item (.seq args)]))

/-- Python truthiness of the values the channel can carry, used for
`if self.send_and_return(["iscallable", ...]):`. -/
def pyTruthy : PyVal → Bool
  | .str s => !s.isEmpty
  | .int n => n != 0
  | .float q => q != 0
  | .bool b => b
  | .none => false
  | .list xs => !xs.isEmpty

/-- Result of an attribute access on a proxy: an attribute resolved
locally in the host interpreter, a bound remote function, or the
immediately fetched value of a non-callable remote attribute. -/
inductive AttrAccess where
  | localAttr
  | bound (f : List HostVal → Except PyErr HostVal)
  | value (r : Except PyErr HostVal)

/-- The method `CubitConnect.get_attribute` from `cubit_wrapper_host.py`: ask the
client `["iscallable", cubit_id, name]`; if truthy return the bound
closure, otherwise call it at once with no arguments and return the
value. -/
def get_attribute (ch : Channel) (obj : CubitObject) (name : String) :
    AttrAccess :=
  if pyTruthy (recvVal ch (.list [.str "iscallable", obj.cubit_id, .str name]))
  then .bound (proxy_call ch obj name)
  else .value (proxy_call ch obj name [])

/-- The attribute names that `object.__getattribute__` resolves on a
`CubitObject` itself (its two fields and the methods defined by the
class in `cubit_wrapper_host.py`). -/
def cubitObjectLocalNames : List String :=
  ["cubit_connect", "cubit_id", "isinstance", "get_self_dir", "get_methods",
   "get_attributes", "get_geometry_type", "get_node_ids"]

/-- The hook `CubitObject.__getattribute__` from `cubit_wrapper_host.py`: attributes
that exist on the host object are returned locally; an `AttributeError`
falls through to `cubit_connect.get_attribute`. -/
def cubitObject_getattribute (ch : Channel) (obj : CubitObject)
    (name : String) : AttrAccess :=
  if name ∈ cubitObjectLocalNames then .localAttr
  else get_attribute ch obj name

/-- The finalizer `CubitObject.__del__` from `cubit_wrapper_host.py`: send
`["delete", cubit_id]` through `send_and_return`, discarding the reply
(and swallowing a closed transport).  The value returned models what
`send_and_return` gives back. -/
def cubitObject_del (ch : Channel) (obj : CubitObject) : Option PyVal :=
  send_and_return ch (.list [.str "delete", obj.cubit_id])

/-- The wire messages actually transmitted by `CubitObject.__del__`:
on a closed channel `channel.send` raises before anything is sent. -/
def cubitObject_del_sent (ch : Channel) (obj : CubitObject) : List PyVal :=
  if ch.closed then [] else [.list [.str "delete", obj.cubit_id]]

/-- The finalizer `CubitObjectMain.__del__` from `cubit_wrapper_host.py` is `pass`: the
root proxy's finalizer transmits nothing. -/
def cubitObjectMain_del_sent (_ch : Channel) (_obj : CubitObject) :
    List PyVal :=
  []

/-- The tail of `CubitConnect.__init__` from `cubit_wrapper_host.py`
(`open` in the design document): send the parameters, send
`["init", arguments]`, and build the root proxy `CubitObjectMain` from the
reply; the `CubitObject` constructor raises on a malformed handle. -/
def cubit_connect_open (conn : Nat) (ch : Channel) (params : PyVal)
    (arguments : PyVal) : Except PyErr CubitObject :=
  let _ack := recvVal ch params
  CubitObject.make conn (recvVal ch (.list [.str "init", arguments]))

/-! ## Client side: `cubitpy/cubit_wrapper2.py` -/

/-- Python indexing `v[i]` for the values on the channel: lists index into
their elements (`IndexError` out of range), strings into one-character
strings, everything else raises `TypeError`. -/
def pyIndex (v : PyVal) (i : Nat) : Except PyErr PyVal :=
  match v with
  | .list xs =>
    match xs[i]? with
    | some x => .ok x
    | Option.none => .error .indexError
  | .str s =>
    match s.toList[i]? with
    | some c => .ok (.str (String.mk [c]))
    | Option.none => .error .indexError
  | _ => .error .typeError

/-- Python iteration `for item in v`: lists yield their elements, strings
their one-character substrings, everything else raises `TypeError`. -/
def pyIter (v : PyVal) : Except PyErr (List PyVal) :=
  match v with
  | .list xs => .ok xs
  | .str s => .ok (s.toList.map (fun c => .str (String.mk [c])))
  | _ => .error .typeError

/-- Modelled from the spec: `string_to_id`, which the client
`cubitpy/cubit_wrapper2.py` imports from `cubit_wrapper_utility`, is not
present in the utility module of the sources.  Per the wire table, an
object reference arriving at the client carries the fixed id marker in its
`idString`; `string_to_id` recovers the numeric id from such a string and
returns `None` for any other value. -/
def string_to_id : PyVal → Option Int
  | .str s =>
    if strStartsWith s idMarker then pyInt? (strDrop s 8) else Option.none
  | _ => Option.none

/-- The client-side Object Registry: the `cubit_objects` dictionary of
`cubitpy/cubit_wrapper2.py`, mapping python `id()` keys to the live engine
objects. -/
structure ClientState where
  cubit_objects : List (Int × EngineObj)

/-- Remove a key from the registry (python `dict` deletion / overwrite
helper). -/
def regEraseKey (reg : List (Int × EngineObj)) (n : Int) :
    List (Int × EngineObj) :=
  reg.filter (fun p => decide (p.1 ≠ n))

/-- Dict assignment `cubit_objects[id(obj)] = obj`: insert the object under its `id()`,
replacing any entry already stored under that key. -/
def regInsert (reg : List (Int × EngineObj)) (o : EngineObj) :
    List (Int × EngineObj) :=
  (o.oid, o) :: regEraseKey reg o.oid

/-- Dict lookup `cubit_objects[n]`, `None`-free: `Option.none` models
`KeyError`. -/
def regLookup (reg : List (Int × EngineObj)) (n : Int) : Option EngineObj :=
  (reg.find? (fun p => decide (p.1 = n))).map Prod.snd

/-- Register an engine object in the state. -/
def register (st : ClientState) (o : EngineObj) : ClientState :=
  ⟨regInsert st.cubit_objects o⟩

/-- An argument to an engine call after the client resolved the wire
values: either a live engine object from the registry or a plain python
value. -/
inductive ClientArg where
  | obj (o : EngineObj)
  | val (v : PyVal)

/-- One entry of the argument loop in `cubitpy/cubit_wrapper2.py`
(`for item in receive[2]`): a recognized id is looked up in the registry
(`KeyError` when absent), anything else is passed through unchanged. -/
def client_arg (st : ClientState) (item : PyVal) : Except PyErr ClientArg :=
  match string_to_id item with
  | some n =>
    match regLookup st.cubit_objects n with
    | some o => .ok (.obj o)
    | Option.none => .error .keyError
  | Option.none => .ok (.val item)

/-- A value produced by an engine call: a plain python value, a live
engine object, or a tuple of such results. -/
inductive EngineVal where
  | val (v : PyVal)
  | obj (o : EngineObj)
  | tup (xs : List EngineVal)

/-- The opaque engine: what `call_object.__getattribute__(function)(*args)`
returns (or raises), and the `dir`/`callable` information used by
`get_methods`. -/
structure EngineEnv where
  call : EngineObj → String → List ClientArg → Except PyErr EngineVal
  dirOf : EngineObj → List (String × Bool)

/-- Result of one iteration of the serving loop: a reply sent back with
the new registry state, a clean exit (`None` received), or an uncaught
exception, which terminates the loop without sending anything. -/
inductive StepResult where
  | reply (resp : PyVal) (st : ClientState)
  | exit (st : ClientState)
  | err (e : PyErr) (st : ClientState)

/-- The registry state after a loop iteration, whatever its outcome. -/
def StepResult.state : StepResult → ClientState
  | .reply _ st => st
  | .exit st => st
  | .err _ st => st

/-- Whether the iteration sent a reply back to the host. -/
def StepResult.isReply : StepResult → Bool
  | .reply _ _ => true
  | _ => false

/-- The tuple branch of the return classification in
`cubitpy/cubit_wrapper2.py`: walk the tuple left to right, keeping base
values, registering cubit objects and appending their wire handles, and
raising `TypeError` at the first element that is neither — registrations
made before the offending element survive. -/
def classify_tuple (st : ClientState) :
    List EngineVal → Except PyErr (List PyVal) × ClientState
  | [] => (.ok [], st)
  | item :: rest =>
    match item with
    | .val v =>
      if is_base_type v then
        match classify_tuple st rest with
        | (.ok l, s) => (.ok (v :: l), s)
        | (.error e, s) => (.error e, s)
      else (.error .typeError, st)
    | .obj o =>
      if is_cubit_type o then
        match classify_tuple (register st o) rest with
        | (.ok l, s) => (.ok (object_to_id o :: l), s)
        | (.error e, s) => (.error e, s)
      else (.error .typeError, st)
    | .tup _ => (.error .typeError, st)

/-- Classification of an engine return value in
`cubitpy/cubit_wrapper2.py` (lines 150-176): base values are sent as they
are, tuples elementwise, cubit objects are registered and their wire
handle sent, anything else raises `TypeError`. -/
def classify_send (st : ClientState) (ret : EngineVal) : StepResult :=
  match ret with
  | .val v => if is_base_type v then .reply v st else .err .typeError st
  | .tup xs =>
    match classify_tuple st xs with
    | (.ok l, s) => .reply (.list l) s
    | (.error e, s) => .err e s
  | .obj o =>
    if is_cubit_type o then .reply (object_to_id o) (register st o)
    else .err .typeError st

/-- The body of the method-dispatch branch after the registry-size check:
resolve the object (`KeyError` when unknown), read the method name and the
argument list, resolve nested object references, invoke the engine, and
classify the result. -/
def dispatch_after_check (env : EngineEnv) (st : ClientState) (msg : PyVal)
    (n : Int) : StepResult :=
  match regLookup st.cubit_objects n with
  | Option.none => .err .keyError st
  | some callObj =>
    match pyIndex msg 1 with
    | .error e => .err e st
    | .ok fv =>
      match pyIndex msg 2 with
      | .error e => .err e st
      | .ok av =>
        match pyIter av with
        | .error e => .err e st
        | .ok items =>
          match items.mapM (client_arg st) with
          | .error e => .err e st
          | .ok args =>
            match fv with
            | .str fname =>
              match env.call callObj fname args with
              | .error e => .err e st
              | .ok ret => classify_send st ret
            | _ => .err .typeError st

/-- The method-dispatch branch of the serving loop
(`cubitpy/cubit_wrapper2.py` lines 121-176): first the registry-size
check — more than 10000 registered objects raises `OverflowError` — then
the dispatch proper. -/
def dispatch_method (env : EngineEnv) (st : ClientState) (msg : PyVal)
    (n : Int) : StepResult :=
  if st.cubit_objects.length > 10000 then .err .overflowError st
  else dispatch_after_check env st msg n

/-- The `isinstance` branch of the serving loop
(`cubitpy/cubit_wrapper2.py` lines 178-192): resolve `receive[1]` in the
registry, compare `receive[2]` against the four geometry tags and reply a
boolean; an unknown tag raises `ValueError`. -/
def handle_isinstance (st : ClientState) (msg : PyVal) : StepResult :=
  match pyIndex msg 1 with
  | .error e => .err e st
  | .ok hv =>
    match string_to_id hv with
    | Option.none => .err .keyError st
    | some n =>
      match regLookup st.cubit_objects n with
      | Option.none => .err .keyError st
      | some o =>
        match pyIndex msg 2 with
        | .error e => .err e st
        | .ok gv =>
          match gv with
          | .str g =>
            if g = "cubitpy_vertex" then
              .reply (.bool (decide (o.kind = some .vertex))) st
            else if g = "cubitpy_curve" then
              .reply (.bool (decide (o.kind = some .curve))) st
            else if g = "cubitpy_surface" then
              .reply (.bool (decide (o.kind = some .surface))) st
            else if g = "cubitpy_volume" then
              .reply (.bool (decide (o.kind = some .volume))) st
            else .err .valueError st
          | _ => .err .valueError st

/-- The `get_methods` branch of the serving loop
(`cubitpy/cubit_wrapper2.py` lines 194-200): reply the names of the
callable attributes of the object. -/
def handle_get_methods (env : EngineEnv) (st : ClientState) (msg : PyVal) :
    StepResult :=
  match pyIndex msg 1 with
  | .error e => .err e st
  | .ok hv =>
    match string_to_id hv with
    | Option.none => .err .keyError st
    | some n =>
      match regLookup st.cubit_objects n with
      | Option.none => .err .keyError st
      | some o =>
        .reply (.list (((env.dirOf o).filter (fun p => p.2)).map
          (fun p => .str p.1))) st

/-- One iteration of the serving loop of `cubitpy/cubit_wrapper2.py`
(lines 103-204): `None` exits the loop; otherwise `receive[0]` must be a
string (`TypeError` when not); a recognized id dispatches a method call;
the literal tags `isinstance` and `get_methods` select their branches; any
other string reaches the final `else`, which raises `ValueError` without
sending a reply. -/
def serving_step (env : EngineEnv) (st : ClientState)
    (receive : Option PyVal) : StepResult :=
  match receive with
  | Option.none => .exit st
  | some msg =>
    match pyIndex msg 0 with
    | .error e => .err e st
    | .ok first =>
      match first with
      | .str s =>
        match string_to_id (.str s) with
        | some n => dispatch_method env st msg n
        | Option.none =>
          if s = "isinstance" then handle_isinstance st msg
          else if s = "get_methods" then handle_get_methods env st msg
          else .err .valueError st
      | _ => .err .typeError st

/-- Modelled from the spec: the `delete` branch of the client dispatch
loop.  The loop the in-src host drives lives in
`cubit_wrapper_client.py`, which is absent from the sources (the legacy
client in `cubitpy/cubit_wrapper2.py` has no `delete` branch at all).
Per the spec, `["delete", handle]` removes the id from the Registry if
present and replies an acknowledgement; an absent id is not an error. -/
def client_delete (st : ClientState) (handle : PyVal) : StepResult :=
  match cubit_item_to_id handle with
  | .ok (some n) => .reply .none ⟨regEraseKey st.cubit_objects n⟩
  | _ => .reply .none st

/-- Well-formedness of the registry: every entry is stored under the
`id()` of the object it holds, and no key occurs twice.  Distinct
simultaneously-live python objects have distinct `id()` values, so this is
the registry invariant of the design document. -/
def RegWF (reg : List (Int × EngineObj)) : Prop :=
  (∀ p ∈ reg, p.1 = p.2.oid) ∧ (reg.map Prod.fst).Nodup

/-- Well-formedness of a client state. -/
def ClientState.WF (st : ClientState) : Prop :=
  RegWF st.cubit_objects

/-- Whether a wire value is recognized as a handle by the host codec. -/
def isWireHandle (v : PyVal) : Bool :=
  match cubit_item_to_id v with
  | .ok (some _) => true
  | _ => false

/-- Whether a value is a python list. -/
def PyVal.isList : PyVal → Bool
  | .list _ => true
  | _ => false

/-- Whether a value is a string carrying the handle id marker. -/
def carriesMarker : PyVal → Bool
  | .str s => strStartsWith s idMarker
  | _ => false

/-- Elementwise deserialization map of the host codec on well-shaped
elements: handles become proxies on the given connection, anything else is
kept as a base value. -/
def elemDeser (conn : Nat) (item : PyVal) : HostVal :=
  if isWireHandle item then .obj ⟨conn, item⟩ else .base item

/-- A trivial engine environment used to exercise the dispatch loop on
concrete inputs. -/
def trivEngineEnv : EngineEnv :=
  ⟨fun _ _ _ => .ok (.val .none), fun _ => []⟩

/-- The `["delete", handle]` message handler as a whole-message function:
index out the handle and run the delete branch. -/
def client_delete_msg (st : ClientState) (m : PyVal) : StepResult :=
  match pyIndex m 1 with
  | .error e => .err e st
  | .ok h => client_delete st h

deriving instance DecidableEq for Except

/-! ## Helper lemmas -/

/-- A base value is never recognized as a handle by `cubit_item_to_id`. -/
theorem cubit_item_to_id_of_base {v : PyVal} (h : is_base_type v = true) :
    cubit_item_to_id v = .ok Option.none := by
  cases v <;> simp [is_base_type] at h ⊢ <;> rfl

/-- Erasing a key keeps the registry well formed. -/
theorem regWF_erase {reg : List (Int × EngineObj)} (h : RegWF reg) (n : Int) :
    RegWF (regEraseKey reg n) := by
  obtain ⟨hkey, hnd⟩ := h
  refine ⟨fun p hp => hkey p (List.mem_of_mem_filter hp), ?_⟩
  exact List.Nodup.sublist (List.Sublist.map _ (List.filter_sublist reg)) hnd

/-- No entry of the erased registry carries the erased key. -/
theorem regErase_key_ne {reg : List (Int × EngineObj)} {n : Int}
    {p : Int × EngineObj} (hp : p ∈ regEraseKey reg n) : p.1 ≠ n := by
  have := List.of_mem_filter hp
  simpa using this

/-- Inserting an object under its own `id()` keeps the registry well
formed. -/
theorem regWF_insert {reg : List (Int × EngineObj)} (h : RegWF reg)
    (o : EngineObj) : RegWF (regInsert reg o) := by
  have he := regWF_erase h o.oid
  refine ⟨?_, ?_⟩
  · intro p hp
    rcases List.mem_cons.mp hp with hp | hp
    · simp [hp]
    · exact he.1 p hp
  · simp only [regInsert, List.map_cons, List.nodup_cons]
    refine ⟨?_, he.2⟩
    intro hmem
    rcases List.mem_map.mp hmem with ⟨p, hp, hpk⟩
    exact regErase_key_ne hp hpk

/-- In a registry with no repeated keys, a key determines its object. -/
theorem regWF_key_unique {reg : List (Int × EngineObj)}
    (hnd : (reg.map Prod.fst).Nodup) {k : Int} {o₁ o₂ : EngineObj}
    (h₁ : (k, o₁) ∈ reg) (h₂ : (k, o₂) ∈ reg) : o₁ = o₂ := by
  induction reg with
  | nil => cases h₁
  | cons a tl ih =>
    simp only [List.map_cons, List.nodup_cons] at hnd
    rcases List.mem_cons.mp h₁ with h₁ | h₁ <;>
      rcases List.mem_cons.mp h₂ with h₂ | h₂
    · rw [← h₁] at h₂; exact (Prod.mk.injEq _ _ _ _ ▸ h₂).2.symm ▸ rfl
    · exfalso
      apply hnd.1
      have : k = a.1 := by rw [← h₁]
      exact this ▸ List.mem_map.mpr ⟨(k, o₂), h₂, rfl⟩
    · exfalso
      apply hnd.1
      have : k = a.1 := by rw [← h₂]
      exact this ▸ List.mem_map.mpr ⟨(k, o₁), h₁, rfl⟩
    · exact ih hnd.2 h₁ h₂

/-- The tuple classification keeps the registry well formed, whether or
not it raises. -/
theorem classify_tuple_wf :
    ∀ (xs : List EngineVal) (st : ClientState), st.WF →
      ((classify_tuple st xs).2).WF := by
  intro xs
  induction xs with
  | nil =>
    intro st h
    simpa [classify_tuple] using h
  | cons item rest ih =>
    intro st h
    cases item with
    | val v =>
      by_cases hb : is_base_type v = true
      · have hrec := ih st h
        simp only [classify_tuple, hb, if_true]
        rcases hres : classify_tuple st rest with ⟨r, s⟩
        rw [hres] at hrec
        cases r <;> simpa using hrec
      · simp only [classify_tuple, hb, if_false]
        simpa using h
    | obj o =>
      by_cases hc : is_cubit_type o = true
      · have hrec := ih (register st o) (regWF_insert h o)
        simp only [classify_tuple, hc, if_true]
        rcases hres : classify_tuple (register st o) rest with ⟨r, s⟩
        rw [hres] at hrec
        cases r <;> simpa using hrec
      · simp only [classify_tuple, hc, if_false]
        simpa using h
    | tup ys =>
      simp only [classify_tuple]
      simpa using h

/-- Classifying an engine result keeps the registry well formed. -/
theorem classify_send_wf (st : ClientState) (ret : EngineVal) (h : st.WF) :
    ((classify_send st ret).state).WF := by
  cases ret with
  | val v =>
    by_cases hb : is_base_type v = true <;>
      simp [classify_send, hb, StepResult.state, h]
  | obj o =>
    by_cases hc : is_cubit_type o = true
    · simpa [classify_send, hc, StepResult.state] using regWF_insert h o
    · simpa [classify_send, hc, StepResult.state] using h
  | tup ys =>
    have := classify_tuple_wf ys st h
    simp only [classify_send]
    rcases hres : classify_tuple st ys with ⟨r, s⟩
    rw [hres] at this
    cases r <;> simpa [StepResult.state] using this

/-- The dispatch branch keeps the registry well formed. -/
theorem dispatch_after_check_wf (env : EngineEnv) (st : ClientState)
    (msg : PyVal) (n : Int) (h : st.WF) :
    ((dispatch_after_check env st msg n).state).WF := by
  unfold dispatch_after_check
  repeat' split
  all_goals first
    | exact classify_send_wf _ _ h
    | simpa [StepResult.state] using h

/-- The `isinstance` branch never changes the registry. -/
theorem handle_isinstance_state (st : ClientState) (msg : PyVal) :
    (handle_isinstance st msg).state = st := by
  unfold handle_isinstance
  repeat' split
  all_goals rfl

/-- The `get_methods` branch never changes the registry. -/
theorem handle_get_methods_state (env : EngineEnv) (st : ClientState)
    (msg : PyVal) : (handle_get_methods env st msg).state = st := by
  unfold handle_get_methods
  repeat' split
  all_goals rfl

/-- One iteration of the serving loop keeps the registry well formed. -/
theorem serving_step_wf (env : EngineEnv) (st : ClientState)
    (receive : Option PyVal) (h : st.WF) :
    ((serving_step env st receive).state).WF := by
  unfold serving_step
  repeat' split
  all_goals first
    | (unfold dispatch_method
       split
       · simpa [StepResult.state] using h
       · exact dispatch_after_check_wf _ _ _ _ h)
    | (rw [handle_isinstance_state]; exact h)
    | (rw [handle_get_methods_state]; exact h)
    | simpa [StepResult.state] using h

/-- A well-shaped list element deserializes to a proxy or a base value. -/
theorem deserialize_item_ok (conn : Nat) {item : PyVal}
    (h : isWireHandle item = true ∨ is_base_type item = true) :
    deserialize_item conn item = .ok (elemDeser conn item) := by
  by_cases hw : isWireHandle item = true
  · unfold isWireHandle at hw
    rcases hcid : cubit_item_to_id item with e | o
    · rw [hcid] at hw; simp at hw
    · cases o with
      | none => rw [hcid] at hw; simp at hw
      | some k =>
        simp [deserialize_item, hcid, elemDeser, isWireHandle]
  · have hb : is_base_type item = true := h.resolve_left hw
    have hcid := cubit_item_to_id_of_base hb
    simp [deserialize_item, hcid, hb, elemDeser, isWireHandle, hw]

/-- Elementwise deserialization of a list of well-shaped elements. -/
theorem mapM_deserialize_item (conn : Nat) :
    ∀ {items : List PyVal},
      (∀ item ∈ items, isWireHandle item = true ∨ is_base_type item = true) →
      items.mapM (deserialize_item conn) = .ok (items.map (elemDeser conn)) := by
  intro items
  induction items with
  | nil => intro _; rfl
  | cons x xs ih =>
    intro h
    rw [List.mapM_cons, deserialize_item_ok conn (h x (by simp)),
      ih (fun item hi => h item (by simp [hi]))]
    rfl

/-- C1 (corrected), counterexample: the spec claims the host deserializer
recursively deserializes sequences, so that a result `[A, [B, C], D]` with
A, D base values and B, C handles keeps its nested shape.  On the code the
nested element `[B, C]` is neither a handle nor a base value, and the
deserializer raises `TypeError` instead. -/
theorem host_deserializer_nested_counterexample :
    deserialize_return 0 (.list [.int 1,
        .list [.list [.str "cp2t3id_11", .str "b"],
               .list [.str "cp2t3id_12", .str "c"]],
        .int 4])
      = .error .typeError := by
  rfl

/-- C1 (corrected): the host deserializer handles exactly one level of
sequence nesting.  A call result that is a list whose own shape is not a
handle, with every element either a wire handle or a base value, comes
back as a list of identical shape in which each handle element is an
independent proxy over the same connection and each base value is kept;
deeper nesting is not deserialized (see the counterexample). -/
theorem host_deserializer_flat_mixed (conn : Nat) (items : List PyVal)
    (htop : cubit_item_to_id (.list items) = .ok Option.none)
    (helem : ∀ item ∈ items,
      isWireHandle item = true ∨ is_base_type item = true) :
    deserialize_return conn (.list items)
      = .ok (.seq (items.map (elemDeser conn))) := by
  simp only [deserialize_return, htop]
  show Except.map HostVal.seq (items.mapM (deserialize_item conn)) = _
  rw [mapM_deserialize_item conn helem]
  rfl

/-- Witness for C1: a concrete flat mixed result `[1, handle, 4]`
deserializes to `[base 1, proxy, base 4]` on connection 3. -/
theorem host_deserializer_flat_mixed_witness :
    cubit_item_to_id (.list [.int 1, .list [.str "cp2t3id_11", .str "b"],
        .int 4]) = .ok Option.none ∧
    deserialize_return 3 (.list [.int 1,
        .list [.str "cp2t3id_11", .str "b"], .int 4])
      = .ok (.seq [.base (.int 1),
          .obj ⟨3, .list [.str "cp2t3id_11", .str "b"]⟩, .base (.int 4)]) := by
  refine ⟨by decide, ?_⟩
  have h := host_deserializer_flat_mixed 3
    [.int 1, .list [.str "cp2t3id_11", .str "b"], .int 4]
    (by decide) (by decide)
  simpa [elemDeser] using h

/-- Erasing the same key twice is the same as erasing it once. -/
theorem regEraseKey_idem (reg : List (Int × EngineObj)) (n : Int) :
    regEraseKey (regEraseKey reg n) n = regEraseKey reg n := by
  simp [regEraseKey, List.filter_filter]

/-- C2 (confirmed, spec-modelled): the client delete branch removes the id
from the registry if present and replies an acknowledgement; deleting the
same handle twice gives the same registry as deleting it once, both
deletes reply without raising, well-formedness of the registry is
preserved, and a delete issued by a host finalizer after the transport has
closed returns the absent value instead of raising. -/
theorem client_delete_idempotent (st : ClientState) (handle : PyVal)
    (h : st.WF) :
    ∃ st' : ClientState,
      client_delete st handle = .reply .none st' ∧ st'.WF ∧
      client_delete st' handle = .reply .none st' ∧
      (∀ (ch : Channel) (obj : CubitObject), ch.closed = true →
        cubitObject_del ch obj = Option.none) := by
  have hch : ∀ (ch : Channel) (obj : CubitObject), ch.closed = true →
      cubitObject_del ch obj = Option.none := by
    intro ch obj hc
    simp [cubitObject_del, send_and_return, hc]
  rcases hcid : cubit_item_to_id handle with e | o
  · exact ⟨st, by simp [client_delete, hcid], h, by simp [client_delete, hcid], hch⟩
  · cases o with
    | none =>
      exact ⟨st, by simp [client_delete, hcid], h,
        by simp [client_delete, hcid], hch⟩
    | some n =>
      refine ⟨⟨regEraseKey st.cubit_objects n⟩, by simp [client_delete, hcid],
        regWF_erase h n, ?_, hch⟩
      simp [client_delete, hcid, regEraseKey_idem]

/-- Witness for C2: deleting a concretely registered handle from a
one-entry registry. -/
theorem client_delete_idempotent_witness :
    ClientState.WF ⟨[((11 : Int), ⟨11, "x", some .volume⟩)]⟩ ∧
    ∃ st' : ClientState,
      client_delete ⟨[((11 : Int), ⟨11, "x", some .volume⟩)]⟩
          (.list [.str "cp2t3id_11", .str "y"]) = .reply .none st' ∧
      st'.WF ∧
      client_delete st' (.list [.str "cp2t3id_11", .str "y"])
        = .reply .none st' ∧
      (∀ (ch : Channel) (obj : CubitObject), ch.closed = true →
        cubitObject_del ch obj = Option.none) :=
  ⟨⟨by simp, by simp⟩,
    client_delete_idempotent _ _ ⟨by simp, by simp⟩⟩

/-- C3 (confirmed): after the transport has closed, `send_and_return`
returns the absent value instead of raising, hence a method call on a
proxy returns python `None` and a finalizer delete returns the absent
value, while `open` (building the root proxy) fails with `TypeError` on
the absent handle. -/
theorem closed_transport_soft_fail (ch : Channel) (obj : CubitObject)
    (name : String) (args : List HostVal) (m params arguments : PyVal)
    (conn : Nat) (h : ch.closed = true) :
    send_and_return ch m = Option.none ∧
    proxy_call ch obj name args = .ok (.base .none) ∧
    cubitObject_del ch obj = Option.none ∧
    cubit_connect_open conn ch params arguments = .error .typeError := by
  have hrecv : ∀ x, recvVal ch x = .none := by
    intro x
    simp [recvVal, send_and_return, h]
  refine ⟨by simp [send_and_return, h], ?_,
    by simp [cubitObject_del, send_and_return, h], ?_⟩
  · show deserialize_return obj.cubit_connect _ = _
    rw [hrecv]
    rfl
  · show CubitObject.make conn _ = _
    rw [hrecv]
    rfl

/-- Witness for C3: a concrete closed channel and proxy. -/
theorem closed_transport_soft_fail_witness :
    (Channel.mk true (fun _ => .none)).closed = true ∧
    (send_and_return ⟨true, fun _ => .none⟩ (.str "m") = Option.none ∧
     proxy_call ⟨true, fun _ => .none⟩ ⟨0, .list [.str "cp2t3id_1", .str "o"]⟩
       "vol" [] = .ok (.base .none) ∧
     cubitObject_del ⟨true, fun _ => .none⟩
       ⟨0, .list [.str "cp2t3id_1", .str "o"]⟩ = Option.none ∧
     cubit_connect_open 0 ⟨true, fun _ => .none⟩ .none (.list [])
       = .error .typeError) :=
  ⟨rfl, closed_transport_soft_fail ⟨true, fun _ => .none⟩
    ⟨0, .list [.str "cp2t3id_1", .str "o"]⟩ "vol" [] (.str "m") .none
    (.list []) 0 rfl⟩

/-- C4 (confirmed): a wire handle returned by a call builds a proxy whose
stored `cubit_id` is the handle itself, and serializing that proxy back
for transmission yields the original wire handle — in particular the
original `idString` — so handle deserialization followed by serialization
is the identity. -/
theorem handle_round_trip (conn : Nat) (w : PyVal) (i : Int)
    (h : cubit_item_to_id w = .ok (some i)) :
    CubitObject.make conn w = .ok ⟨conn, w⟩ ∧
    deserialize_return conn w = .ok (.obj ⟨conn, w⟩) ∧
    serialize_item (.obj ⟨conn, w⟩) = w := by
  refine ⟨?_, ?_, by simp [serialize_item]⟩
  · simp [CubitObject.make, h]
  · simp [deserialize_return, h]

/-- Witness for C4: round trip of the concrete handle
`['cp2t3id_11', 'b']`. -/
theorem handle_round_trip_witness :
    cubit_item_to_id (.list [.str "cp2t3id_11", .str "b"]) = .ok (some 11) ∧
    (CubitObject.make 2 (.list [.str "cp2t3id_11", .str "b"])
        = .ok ⟨2, .list [.str "cp2t3id_11", .str "b"]⟩ ∧
     deserialize_return 2 (.list [.str "cp2t3id_11", .str "b"])
        = .ok (.obj ⟨2, .list [.str "cp2t3id_11", .str "b"]⟩) ∧
     serialize_item (.obj ⟨2, .list [.str "cp2t3id_11", .str "b"]⟩)
        = .list [.str "cp2t3id_11", .str "b"]) :=
  ⟨by decide, handle_round_trip 2 _ 11 (by decide)⟩

/-- C5 (confirmed): the registry invariant — every entry is keyed by the
`id()` of the object it stores and no key repeats — is preserved by every
iteration of the serving loop, and under it no two distinct registered
engine objects ever share an id. -/
theorem registry_uniqueness (env : EngineEnv) (st : ClientState)
    (m : Option PyVal) (h : st.WF) :
    ((serving_step env st m).state).WF ∧
    ∀ (k : Int) (o₁ o₂ : EngineObj),
      (k, o₁) ∈ ((serving_step env st m).state).cubit_objects →
      (k, o₂) ∈ ((serving_step env st m).state).cubit_objects → o₁ = o₂ := by
  have hwf := serving_step_wf env st m h
  have hnd : (((serving_step env st m).state).cubit_objects.map
      Prod.fst).Nodup := hwf.2
  exact ⟨hwf, fun k o₁ o₂ h₁ h₂ => regWF_key_unique hnd h₁ h₂⟩

/-- Witness for C5: the empty registry is well formed and stays so over a
concrete dispatch step that registers an object. -/
theorem registry_uniqueness_witness :
    ClientState.WF ⟨[]⟩ ∧
    (((serving_step trivEngineEnv ⟨[]⟩ Option.none).state).WF ∧
     ∀ (k : Int) (o₁ o₂ : EngineObj),
       (k, o₁) ∈ ((serving_step trivEngineEnv ⟨[]⟩
         Option.none).state).cubit_objects →
       (k, o₂) ∈ ((serving_step trivEngineEnv ⟨[]⟩
         Option.none).state).cubit_objects → o₁ = o₂) :=
  ⟨⟨by simp, by simp⟩,
    registry_uniqueness trivEngineEnv ⟨[]⟩ Option.none ⟨by simp, by simp⟩⟩

/-- C6 (confirmed): the root proxy's finalizer is a no-op — it transmits
no delete message, and processing the (empty) list of messages it sends
leaves any client registry exactly as it was, so the root engine object is
never removed. -/
theorem root_proxy_immortal (ch : Channel) (obj : CubitObject) :
    cubitObjectMain_del_sent ch obj = [] ∧
    ∀ st : ClientState,
      (cubitObjectMain_del_sent ch obj).foldl
        (fun s msg => (client_delete_msg s msg).state) st = st :=
  ⟨rfl, fun _ => rfl⟩

/-- C7 (confirmed): an attribute read on a proxy resolves locally for the
proxy's own fields and methods; otherwise the client is asked whether the
attribute is callable, and a callable attribute yields a bound function
sending `[cubit_id, name, serializedArgs]` when invoked, while a
non-callable attribute is fetched immediately with zero arguments. -/
theorem proxy_attribute_dispatch (ch : Channel) (obj : CubitObject)
    (name : String) :
    cubitObject_getattribute ch obj name =
      if name ∈ cubitObjectLocalNames then .localAttr
      else if pyTruthy (recvVal ch
          (.list [.str "iscallable", obj.cubit_id, .str name])) then
        .bound (fun args =>
          deserialize_return obj.cubit_connect
            (recvVal ch (.list [obj.cubit_id, .str name,
              .list (args.map serialize_item)])))
      else
        .value (deserialize_return obj.cubit_connect
          (recvVal ch (.list [obj.cubit_id, .str name, .list []]))) := by
  unfold cubitObject_getattribute get_attribute
  split
  · rfl
  · split
    · congr 1
      funext args
      simp [proxy_call, serialize_item_seq]
    · congr 1
      simp [proxy_call, serialize_item_seq]

/-- C8 (corrected), counterexample: the spec claims the dispatch loop
replies with an error indicator to an unrecognized command; on the code
the message `["bogus"]` instead raises `ValueError` inside the loop and no
reply is sent. -/
theorem unknown_command_counterexample :
    serving_step trivEngineEnv ⟨[]⟩ (some (.list [.str "bogus"]))
        = .err .valueError ⟨[]⟩ ∧
    (serving_step trivEngineEnv ⟨[]⟩
        (some (.list [.str "bogus"]))).isReply = false :=
  ⟨rfl, rfl⟩

/-- C8 (corrected): a received message whose first element is a string
that is neither a recognized registry id nor one of the command tags makes
the serving loop raise `ValueError`, terminating the loop without sending
any reply; the registry is left unchanged. -/
theorem unknown_command_raises (env : EngineEnv) (st : ClientState)
    (s : String) (rest : List PyVal)
    (hid : string_to_id (.str s) = Option.none)
    (h1 : s ≠ "isinstance") (h2 : s ≠ "get_methods") :
    serving_step env st (some (.list (.str s :: rest)))
        = .err .valueError st ∧
    (serving_step env st (some (.list (.str s :: rest)))).isReply = false := by
  have heq : serving_step env st (some (.list (.str s :: rest)))
      = .err .valueError st := by
    simp [serving_step, pyIndex, hid, h1, h2]
  exact ⟨heq, by rw [heq]; rfl⟩

/-- Witness for C8: the concrete unknown tag `frobnicate`. -/
theorem unknown_command_raises_witness :
    string_to_id (.str "frobnicate") = Option.none ∧
    serving_step trivEngineEnv ⟨[]⟩
        (some (.list [.str "frobnicate", .int 0])) = .err .valueError ⟨[]⟩ ∧
    (serving_step trivEngineEnv ⟨[]⟩
        (some (.list [.str "frobnicate", .int 0]))).isReply = false :=
  ⟨by decide,
    (unknown_command_raises trivEngineEnv ⟨[]⟩ "frobnicate" [.int 0]
      (by decide) (by decide) (by decide)).1,
    (unknown_command_raises trivEngineEnv ⟨[]⟩ "frobnicate" [.int 0]
      (by decide) (by decide) (by decide)).2⟩

/-- C9 (confirmed): a method-dispatch message arriving while the registry
holds more than 10000 entries raises `OverflowError` before the target
object is resolved or the engine invoked (the outcome does not depend on
the engine and the registry is unchanged); with at most 10000 entries the
check passes and dispatch proceeds. -/
theorem registry_capacity (env : EngineEnv) (st : ClientState) (s : String)
    (rest : List PyVal) (n : Int)
    (hid : string_to_id (.str s) = some n) :
    (10000 < st.cubit_objects.length →
      serving_step env st (some (.list (.str s :: rest)))
        = .err .overflowError st) ∧
    (st.cubit_objects.length ≤ 10000 →
      serving_step env st (some (.list (.str s :: rest)))
        = dispatch_after_check env st (.list (.str s :: rest)) n) := by
  constructor
  · intro hlen
    have hgt : st.cubit_objects.length > 10000 := hlen
    simp [serving_step, pyIndex, hid, dispatch_method, hgt]
  · intro hlen
    have hle : ¬ st.cubit_objects.length > 10000 := by omega
    simp [serving_step, pyIndex, hid, dispatch_method, hle]

/-- A registry holding 10001 distinct objects, to exercise the capacity
check. -/
def bigRegistry : List (Int × EngineObj) :=
  (List.range 10001).map (fun (i : Nat) => (Int.ofNat i, ⟨Int.ofNat i, "", Option.none⟩))

/-- Witness for C9: the capacity check fires on a 10001-entry registry and
passes on the empty one. -/
theorem registry_capacity_witness :
    string_to_id (.str "cp2t3id_7") = some 7 ∧
    10000 < (bigRegistry : List (Int × EngineObj)).length ∧
    serving_step trivEngineEnv ⟨bigRegistry⟩
        (some (.list [.str "cp2t3id_7", .str "f", .list []]))
      = .err .overflowError ⟨bigRegistry⟩ ∧
    ((⟨[]⟩ : ClientState).cubit_objects.length ≤ 10000 ∧
     serving_step trivEngineEnv ⟨[]⟩
        (some (.list [.str "cp2t3id_7", .str "f", .list []]))
       = dispatch_after_check trivEngineEnv ⟨[]⟩
          (.list [.str "cp2t3id_7", .str "f", .list []]) 7) :=
  ⟨by decide, by simp only [bigRegistry, List.length_map, List.length_range]; omega,
    (registry_capacity trivEngineEnv ⟨bigRegistry⟩ "cp2t3id_7"
      [.str "f", .list []] 7 (by decide)).1
      (by simp only [bigRegistry, List.length_map, List.length_range]; omega),
    by simp,
    (registry_capacity trivEngineEnv ⟨[]⟩ "cp2t3id_7"
      [.str "f", .list []] 7 (by decide)).2 (by simp)⟩

/-- C10 (confirmed): `cubit_item_to_id` indexes the first element of a
list without guarding emptiness, so the empty list raises `IndexError`
and a call result that is an empty list crashes the host deserializer;
every non-list input and every non-empty list whose first element does not
carry the id marker returns `None`. -/
theorem cubit_item_to_id_edges :
    (cubit_item_to_id (.list []) = .error .indexError) ∧
    (∀ conn : Nat, deserialize_return conn (.list [])
        = .error .indexError) ∧
    (∀ v : PyVal, v.isList = false →
        cubit_item_to_id v = .ok Option.none) ∧
    (∀ (x : PyVal) (xs : List PyVal), carriesMarker x = false →
        cubit_item_to_id (.list (x :: xs)) = .ok Option.none) := by
  refine ⟨rfl, fun conn => rfl, ?_, ?_⟩
  · intro v hv
    cases v <;> simp [PyVal.isList] at hv ⊢ <;> rfl
  · intro x xs hx
    cases x <;> simp [carriesMarker] at hx ⊢ <;>
      simp [cubit_item_to_id, hx]

/-- Witness for C10: a non-list value and a list headed by an unmarked
string both give `None`. -/
theorem cubit_item_to_id_edges_witness :
    PyVal.isList (.int 3) = false ∧
    cubit_item_to_id (.int 3) = .ok Option.none ∧
    carriesMarker (.str "hello") = false ∧
    cubit_item_to_id (.list [.str "hello"]) = .ok Option.none :=
  ⟨rfl, cubit_item_to_id_edges.2.2.1 (.int 3) rfl,
    by decide, cubit_item_to_id_edges.2.2.2 (.str "hello") [] (by decide)⟩

end CubitPy
